import Mathlib

/-!
# Verification of the nx53 packet-inspection engine

A shallow embedding of `src/logic.rs` (the `PacketInspector` decision
engine) and proofs about it.  Time is modelled as a natural number of
seconds (`Instant` / `Duration` arithmetic on `u64` seconds), maps as
functions out of `String`, and the `and_modify` closure of
`PacketInspector::inspect` as a chain of step functions, each modelling
one labelled block of the source; an early `return` of the closure is a
`.inl (should_block, state)` value that aborts the chain.
-/

namespace Nx53

/-- `Instant::checked_duration_since`: `none` when `earlier` is in the
future, otherwise the elapsed seconds. -/
def checkedDurationSince (now earlier : Nat) : Option Nat :=
  if earlier ≤ now then some (now - earlier) else none

/-- `HashSet::insert` on the `unique_domains` set, modelled as a
duplicate-free list. -/
def insertDomain (doms : List String) (d : String) : List String :=
  if d ∈ doms then doms else d :: doms

/-- `config.rs`: `RateLimitConfig`. -/
structure RateLimitConfig where
  enabled : Bool
  requests_per_sec : Nat
  burst : Nat
  first_offense_duration_secs : Nat
  second_offense_duration_secs : Nat
deriving DecidableEq, Repr

/-- `config.rs`: `FilterConfig`.  The two `f64` fields
(`subdomain_entropy_threshold`, and the Shannon entropy computed from it
in `calculate_subdomain_entropy`) have no exact embedding; the combined
test `subdomain_entropy_threshold > 0.0 && entropy(unique_domains) >
subdomain_entropy_threshold` is abstracted as the oracle `entropyTrips`.
No claim below depends on its value: theorems hold for every oracle. -/
structure FilterConfig where
  block_any_queries : Bool
  block_large_txt : Bool
  txt_max_size : Nat
  blocked_query_types : List String
  max_udp_response_size : Nat
  enable_rrl : Bool
  rrl_responses_per_sec : Nat
  rrl_slip_ratio : Nat
  force_tcp_for_large : Bool
  tcp_validation_enabled : Bool
  tcp_validation_ttl_hours : Nat
  amplification_ratio_limit : Nat
  entropyTrips : List String → Bool
  detect_reflection_patterns : Bool

/-- `logic.rs`: `IpState`. -/
structure IpState where
  first_seen : Nat
  last_seen : Nat
  first_query : String
  is_legit : Bool
  is_blocked : Bool
  banned_until : Option Nat
  offense_count : Nat
  last_rate_check : Nat
  current_window_requests : Nat
  total_query_bytes : Nat
  total_response_bytes : Nat
  unique_domains : List String
  tcp_validated : Bool
  tcp_validation_time : Option Nat
  rrl_response_count : Nat
  last_rrl_check : Nat
deriving DecidableEq, Repr

/-- `logic.rs`: `PacketInspector`.  The two `DashMap`s become functions
(`0` / `none` for an absent key). -/
structure PacketInspector where
  domain_stats : String → Nat
  ip_states : String → Option IpState
  threshold_domain_reqs : Nat
  rate_limit_config : RateLimitConfig
  filter_config : FilterConfig
  auto_whitelist_days : Nat

/-- Point update of a map. -/
def updateMap {α : Type} (m : String → α) (k : String) (v : α) : String → α :=
  fun x => if x = k then v else m x

/-- `PacketInspector::new`. -/
def PacketInspector.new (threshold_domain_reqs : Nat) (rlc : RateLimitConfig)
    (fc : FilterConfig) (auto_whitelist_days : Nat) : PacketInspector :=
  { domain_stats := fun _ => 0
    ip_states := fun _ => none
    threshold_domain_reqs := threshold_domain_reqs
    rate_limit_config := rlc
    filter_config := fc
    auto_whitelist_days := auto_whitelist_days }

/-- Outcome of one stage of the `and_modify` closure: `.inl (b, st)`
models an early `return` with `should_block = b`; `.inr st` falls
through to the next stage. -/
abbrev Step := (Bool × IpState) ⊕ IpState

/-- Sequencing of stages: an early return short-circuits. -/
def stepThen (r : Step) (f : IpState → Step) : Step :=
  match r with
  | .inl done => .inl done
  | .inr st => f st

/-- Step 0 of `and_modify`: unconditional bookkeeping
(`last_seen`, `total_query_bytes`, `unique_domains.insert`). -/
def touchState (st : IpState) (now : Nat) (query_domain : String)
    (packet_size : Nat) : IpState :=
  { st with
    last_seen := now
    total_query_bytes := st.total_query_bytes + packet_size
    unique_domains := insertDomain st.unique_domains query_domain }

/-- "Check if ban expired": `now > until` clears the ban, otherwise
return block. -/
def banExpiryStep (now : Nat) (st : IpState) : Step :=
  match st.banned_until with
  | some untilT =>
      if now > untilT then
        .inr { st with banned_until := none, is_blocked := false }
      else
        .inl (true, st)
  | none => .inr st

/-- The reflection-pattern signature: new IP, few domains, high rate, no
TCP validation. -/
def reflectionGuard (now : Nat) (st : IpState) : Bool :=
  decide (now - st.first_seen < 60) && decide (st.unique_domains.length ≤ 2)
    && decide (st.current_window_requests > 20) && !st.tcp_validated

/-- "Reflection Pattern Detection (Enhanced)". -/
def reflectionStep (fc : FilterConfig) (rlc : RateLimitConfig) (now : Nat)
    (st : IpState) : Step :=
  if fc.detect_reflection_patterns && reflectionGuard now st then
    .inl (true, { st with
      is_blocked := true
      banned_until := some (now + rlc.second_offense_duration_secs) })
  else .inr st

/-- "Subdomain Entropy Detection"; the `f64` entropy comparison is the
`entropyTrips` oracle of `FilterConfig`. -/
def entropyStep (fc : FilterConfig) (st : IpState) : Step :=
  if fc.entropyTrips st.unique_domains && decide (st.unique_domains.length > 10)
      && !st.tcp_validated then
    .inl (true, { st with is_blocked := true })
  else .inr st

/-- "Legitimacy Validation (The Escape Hatch)". -/
def escapeHatchStep (query_domain : String) (is_high_volume : Bool)
    (st : IpState) : Step :=
  if st.is_blocked && decide (query_domain ≠ st.first_query) && !is_high_volume then
    .inl (false, { st with is_legit := true, is_blocked := false })
  else .inr st

/-- `if state.is_blocked { should_block = true; return; }`. -/
def blockedStep (st : IpState) : Step :=
  if st.is_blocked then .inl (true, st) else .inr st

/-- "Auto Whitelist check" (no early return). -/
def autoWhitelistStep (days now : Nat) (st : IpState) : IpState :=
  if !st.is_legit && decide (now - st.first_seen > days * 86400) then
    { st with is_legit := true }
  else st

/-- "TCP Validation Trust": expire a stale validation (no early return). -/
def tcpExpiryStep (fc : FilterConfig) (now : Nat) (st : IpState) : IpState :=
  if st.tcp_validated then
    match st.tcp_validation_time with
    | some vt =>
        if now - vt > fc.tcp_validation_ttl_hours * 3600 then
          { st with tcp_validated := false, tcp_validation_time := none }
        else st
    | none => st
  else st

/-- The shared 1-second window advance of the RRL and rate-limit
buckets: reset when at least one second has elapsed. -/
def advanceWindow (now last count : Nat) : Nat × Nat :=
  match checkedDurationSince now last with
  | some d => if d ≥ 1 then (now, 0) else (last, count)
  | none => (last, count)

/-- "Response Rate Limiting (RRL)". -/
def rrlStep (fc : FilterConfig) (now : Nat) (st : IpState) : Step :=
  if fc.enable_rrl then
    let w := advanceWindow now st.last_rrl_check st.rrl_response_count
    let st := { st with last_rrl_check := w.1, rrl_response_count := w.2 + 1 }
    if st.rrl_response_count > fc.rrl_responses_per_sec then
      if fc.rrl_slip_ratio == 0 || st.rrl_response_count % fc.rrl_slip_ratio != 0 then
        .inl (true, st)
      else .inr st
    else .inr st
  else .inr st

/-- "Standard Rate Limiting" with the offense ladder. -/
def rateLimitStep (rlc : RateLimitConfig) (now : Nat) (st : IpState) : Step :=
  if rlc.enabled then
    let w := advanceWindow now st.last_rate_check st.current_window_requests
    let st := { st with last_rate_check := w.1, current_window_requests := w.2 + 1 }
    if st.current_window_requests > rlc.requests_per_sec then
      let duration_secs := if st.offense_count == 0 then
          rlc.first_offense_duration_secs
        else rlc.second_offense_duration_secs
      .inl (true, { st with
        offense_count := st.offense_count + 1
        banned_until := some (now + duration_secs)
        is_blocked := true })
    else .inr st
  else .inr st

/-- Tail of the closure: `if state.is_legit { pass }` then "Legitimacy
Validation for non-blocked IPs querying different safe domain". -/
def legitStep (query_domain : String) (is_high_volume : Bool)
    (st : IpState) : Bool × IpState :=
  if st.is_legit then (false, st)
  else if decide (query_domain ≠ st.first_query) && !is_high_volume then
    (false, { st with is_legit := true, is_blocked := false })
  else (false, st)

/-- End of the chain: an early return is final, a fall-through state is
handed to the closing stage. -/
def finishStep (r : Step) (f : IpState → Bool × IpState) : Bool × IpState :=
  match r with
  | .inl done => done
  | .inr st => f st

/-- The stages of the closure that run after the ban-expiry check has
fallen through (`st1` is the state past that check). -/
def afterBanSteps (fc : FilterConfig) (rlc : RateLimitConfig)
    (auto_whitelist_days now : Nat) (query_domain : String)
    (is_high_volume : Bool) (st1 : IpState) : Bool × IpState :=
  finishStep
    (stepThen (reflectionStep fc rlc now st1) fun st2 =>
     stepThen (entropyStep fc st2) fun st3 =>
     stepThen (escapeHatchStep query_domain is_high_volume st3) fun st4 =>
     stepThen (blockedStep st4) fun st5 =>
     stepThen (rrlStep fc now (tcpExpiryStep fc now
         (autoWhitelistStep auto_whitelist_days now st5))) fun st8 =>
     rateLimitStep rlc now st8)
    (legitStep query_domain is_high_volume)

/-- The whole `and_modify` closure of `PacketInspector::inspect`. -/
def inspectExisting (fc : FilterConfig) (rlc : RateLimitConfig)
    (auto_whitelist_days now : Nat) (query_domain : String) (packet_size : Nat)
    (is_high_volume : Bool) (st : IpState) : Bool × IpState :=
  finishStep (banExpiryStep now (touchState st now query_domain packet_size))
    (afterBanSteps fc rlc auto_whitelist_days now query_domain is_high_volume)

/-- "0. Filter Checks (Stateless - immediate blocking)". -/
def statelessBlock (fc : FilterConfig) (query_type : Option String)
    (packet_size : Nat) : Bool :=
  match query_type with
  | some qtype =>
      (fc.block_any_queries && qtype == "ANY")
      || (fc.block_large_txt && qtype == "TXT"
            && decide (packet_size > fc.txt_max_size))
      || fc.blocked_query_types.any fun t => t == qtype
  | none => false

/-- The `or_insert_with` branch ("First Packet Rule") of `inspect`. -/
def freshIpState (now : Nat) (query_domain : String) (packet_size : Nat)
    (block : Bool) : IpState :=
  { first_seen := now
    last_seen := now
    first_query := query_domain
    is_legit := !block
    is_blocked := block
    banned_until := none
    offense_count := 0
    last_rate_check := now
    current_window_requests := 1
    total_query_bytes := packet_size
    total_response_bytes := 0
    unique_domains := [query_domain]
    tcp_validated := false
    tcp_validation_time := none
    rrl_response_count := 1
    last_rrl_check := now }

/-- `PacketInspector::inspect`.  Returns the blocking decision and the
updated inspector. -/
def PacketInspector.inspect (insp : PacketInspector) (now : Nat)
    (source_ip query_domain : String) (query_type : Option String)
    (packet_size : Nat) : Bool × PacketInspector :=
  if statelessBlock insp.filter_config query_type packet_size then
    (true, insp)
  else
    let domain_count := insp.domain_stats query_domain + 1
    let stats := updateMap insp.domain_stats query_domain domain_count
    let is_high_volume := decide (domain_count > insp.threshold_domain_reqs)
    match insp.ip_states source_ip with
    | some st =>
        let r := inspectExisting insp.filter_config insp.rate_limit_config
          insp.auto_whitelist_days now query_domain packet_size is_high_volume st
        (r.1, { insp with
          domain_stats := stats
          ip_states := updateMap insp.ip_states source_ip (some r.2) })
    | none =>
        (is_high_volume, { insp with
          domain_stats := stats
          ip_states := updateMap insp.ip_states source_ip
            (some (freshIpState now query_domain packet_size is_high_volume)) })

/-- `PacketInspector::mark_tcp_validated`. -/
def PacketInspector.mark_tcp_validated (insp : PacketInspector) (now : Nat)
    (ip : String) : Bool × PacketInspector :=
  match insp.ip_states ip with
  | some st =>
      (true, { insp with
        ip_states := updateMap insp.ip_states ip
          (some { st with tcp_validated := true, tcp_validation_time := some now }) })
  | none => (false, insp)

/-- `PacketInspector::record_response_size`. -/
def PacketInspector.record_response_size (insp : PacketInspector)
    (ip : String) (response_size : Nat) : Bool × PacketInspector :=
  match insp.ip_states ip with
  | some st =>
      let st := { st with
        total_response_bytes := st.total_response_bytes + response_size }
      if st.total_query_bytes > 0 then
        let ratio := st.total_response_bytes / st.total_query_bytes
        if decide (ratio > insp.filter_config.amplification_ratio_limit)
            && !st.tcp_validated && decide (st.total_response_bytes > 10000) then
          (true, { insp with
            ip_states := updateMap insp.ip_states ip
              (some { st with is_blocked := true }) })
        else
          (false, { insp with
            ip_states := updateMap insp.ip_states ip (some st) })
      else
        (false, { insp with
          ip_states := updateMap insp.ip_states ip (some st) })
  | none => (false, insp)

/-- One externally driven operation on the inspector. -/
inductive Op where
  | query (now : Nat) (source_ip query_domain : String)
      (query_type : Option String) (packet_size : Nat)
  | tcpValidate (now : Nat) (ip : String)
  | response (ip : String) (bytes : Nat)
deriving DecidableEq, Repr

/-- Apply one operation, dropping its boolean result. -/
def applyOp (insp : PacketInspector) : Op → PacketInspector
  | .query now src dom qt sz => (insp.inspect now src dom qt sz).2
  | .tcpValidate now ip => (insp.mark_tcp_validated now ip).2
  | .response ip bytes => (insp.record_response_size ip bytes).2

/-- Run a trace of operations. -/
def runOps (insp : PacketInspector) (ops : List Op) : PacketInspector :=
  ops.foldl applyOp insp

/-- Membership invariant of the source (`banned_until` set implies
`is_blocked`), as a property of the whole inspector. -/
def BanInvP (insp : PacketInspector) : Prop :=
  ∀ ip st t, insp.ip_states ip = some st → st.banned_until = some t →
    st.is_blocked = true

/-! ## Concrete fixtures for witnesses and counterexamples -/

/-- A rate-limit configuration with the default ladder (60 s / 300 s)
and a 100 qps budget. -/
def rlcT : RateLimitConfig :=
  { enabled := true, requests_per_sec := 100, burst := 20,
    first_offense_duration_secs := 60, second_offense_duration_secs := 300 }

/-- `rlcT` with a 5 qps budget. -/
def rlc5 : RateLimitConfig := { rlcT with requests_per_sec := 5 }

/-- The default filters with RRL disabled and a constantly false entropy
oracle. -/
def fcT : FilterConfig :=
  { block_any_queries := true, block_large_txt := true, txt_max_size := 1024,
    blocked_query_types := ["AXFR", "IXFR"], max_udp_response_size := 512,
    enable_rrl := false, rrl_responses_per_sec := 5, rrl_slip_ratio := 2,
    force_tcp_for_large := true, tcp_validation_enabled := true,
    tcp_validation_ttl_hours := 24, amplification_ratio_limit := 10,
    entropyTrips := fun _ => false, detect_reflection_patterns := true }

/-- `fcT` with reflection-pattern detection disabled. -/
def fcNR : FilterConfig := { fcT with detect_reflection_patterns := false }

/-- `fcT` with RRL enabled. -/
def fcW : FilterConfig := { fcT with enable_rrl := true }

/-- A fresh inspector with threshold 1000. -/
def inspT : PacketInspector := PacketInspector.new 1000 rlcT fcT 7

/-- 21 same-domain queries from one IP at time 0. -/
def floodOps (ip : String) : List Op :=
  List.replicate 21 (Op.query 0 ip "a.com" none 50)

/-- The inspector after 21 same-domain queries from `8.8.8.8`. -/
def t21 : PacketInspector := runOps inspT (floodOps "8.8.8.8")

/-- 21 queries from `9.9.9.9`, then an amplification block via
`record_response_size`. -/
def u22 : PacketInspector :=
  ((runOps inspT (floodOps "9.9.9.9")).record_response_size "9.9.9.9" 20000).2

/-- A state already 200 requests deep in its rate window. -/
def wSt : IpState :=
  { freshIpState 0 "a.com" 50 false with current_window_requests := 200 }

/-- An inspector holding `wSt`, with reflection detection off. -/
def inspW : PacketInspector :=
  { domain_stats := fun _ => 0,
    ip_states := fun k => if k = "w.w.w.w" then some wSt else none,
    threshold_domain_reqs := 1000, rate_limit_config := rlcT,
    filter_config := fcNR, auto_whitelist_days := 7 }

/-- `wSt` after the rate limiter bans it (first offense). -/
def wStAfter : IpState :=
  { first_seen := 0, last_seen := 0, first_query := "a.com",
    is_legit := true, is_blocked := true, banned_until := some 60,
    offense_count := 1, last_rate_check := 0, current_window_requests := 201,
    total_query_bytes := 100, total_response_bytes := 0,
    unique_domains := ["a.com"], tcp_validated := false,
    tcp_validation_time := none, rrl_response_count := 1, last_rrl_check := 0 }

/-- A first-contact-hostility state (blocked at creation, no ban). -/
def eSt : IpState := freshIpState 0 "flood.com" 0 true

/-- An inspector holding `eSt` with `flood.com` already hot. -/
def inspE : PacketInspector :=
  { domain_stats := fun d => if d = "flood.com" then 101 else 0,
    ip_states := fun k => if k = "5.5.5.5" then some eSt else none,
    threshold_domain_reqs := 100, rate_limit_config := rlcT,
    filter_config := fcT, auto_whitelist_days := 7 }

/-- `eSt` after the escape hatch rehabilitates it. -/
def eStAfter : IpState :=
  { first_seen := 0, last_seen := 0, first_query := "flood.com",
    is_legit := true, is_blocked := false, banned_until := none,
    offense_count := 0, last_rate_check := 0, current_window_requests := 1,
    total_query_bytes := 0, total_response_bytes := 0,
    unique_domains := ["safe.com", "flood.com"], tcp_validated := false,
    tcp_validation_time := none, rrl_response_count := 1, last_rrl_check := 0 }

/-- Six quick queries from `6.6.6.6`. -/
def ops6 : List Op := List.replicate 6 (Op.query 0 "6.6.6.6" "fast.com" none 0)

/-- The banned state of `6.6.6.6` after `ops6`. -/
def bannedStateT : IpState :=
  { first_seen := 0, last_seen := 0, first_query := "fast.com",
    is_legit := true, is_blocked := true, banned_until := some 60,
    offense_count := 1, last_rate_check := 0, current_window_requests := 6,
    total_query_bytes := 0, total_response_bytes := 0,
    unique_domains := ["fast.com"], tcp_validated := false,
    tcp_validation_time := none, rrl_response_count := 1, last_rrl_check := 0 }

/-! ## Case characterizations of the closure's stages -/

@[simp] theorem touchState_banned_until (st : IpState) (now : Nat) (d : String)
    (p : Nat) : (touchState st now d p).banned_until = st.banned_until := rfl

@[simp] theorem touchState_is_legit (st : IpState) (now : Nat) (d : String)
    (p : Nat) : (touchState st now d p).is_legit = st.is_legit := rfl

@[simp] theorem touchState_is_blocked (st : IpState) (now : Nat) (d : String)
    (p : Nat) : (touchState st now d p).is_blocked = st.is_blocked := rfl

@[simp] theorem touchState_offense_count (st : IpState) (now : Nat) (d : String)
    (p : Nat) : (touchState st now d p).offense_count = st.offense_count := rfl

@[simp] theorem touchState_first_query (st : IpState) (now : Nat) (d : String)
    (p : Nat) : (touchState st now d p).first_query = st.first_query := rfl

@[simp] theorem touchState_first_seen (st : IpState) (now : Nat) (d : String)
    (p : Nat) : (touchState st now d p).first_seen = st.first_seen := rfl

theorem banExpiryStep_spec (now : Nat) (st : IpState) :
    (st.banned_until = none ∧ banExpiryStep now st = .inr st) ∨
    (∃ u, st.banned_until = some u ∧ now > u ∧
      banExpiryStep now st = .inr { st with banned_until := none, is_blocked := false }) ∨
    (∃ u, st.banned_until = some u ∧ ¬ now > u ∧
      banExpiryStep now st = .inl (true, st)) := by
  rcases hb : st.banned_until with _ | u
  · exact .inl ⟨rfl, by simp [banExpiryStep, hb]⟩
  · by_cases hu : now > u
    · exact .inr (.inl ⟨u, rfl, hu, by simp [banExpiryStep, hb, hu]⟩)
    · exact .inr (.inr ⟨u, rfl, hu, by simp [banExpiryStep, hb, hu]⟩)

theorem reflectionStep_spec (fc : FilterConfig) (rlc : RateLimitConfig)
    (now : Nat) (st : IpState) :
    ((fc.detect_reflection_patterns && reflectionGuard now st) = true ∧
      reflectionStep fc rlc now st = .inl (true, { st with
        is_blocked := true
        banned_until := some (now + rlc.second_offense_duration_secs) })) ∨
    ((fc.detect_reflection_patterns && reflectionGuard now st) = false ∧
      reflectionStep fc rlc now st = .inr st) := by
  by_cases hg : (fc.detect_reflection_patterns && reflectionGuard now st) = true
  · exact .inl ⟨hg, by simp [reflectionStep, hg]⟩
  · exact .inr ⟨by simpa using hg, by simp [reflectionStep, hg]⟩

theorem entropyStep_spec (fc : FilterConfig) (st : IpState) :
    ((fc.entropyTrips st.unique_domains && decide (st.unique_domains.length > 10)
        && !st.tcp_validated) = true ∧
      entropyStep fc st = .inl (true, { st with is_blocked := true })) ∨
    ((fc.entropyTrips st.unique_domains && decide (st.unique_domains.length > 10)
        && !st.tcp_validated) = false ∧
      entropyStep fc st = .inr st) := by
  by_cases hg : (fc.entropyTrips st.unique_domains
      && decide (st.unique_domains.length > 10) && !st.tcp_validated) = true
  · exact .inl ⟨hg, by simp [entropyStep, hg]⟩
  · exact .inr ⟨by simpa using hg, by simp [entropyStep, hg]⟩

theorem escapeHatchStep_spec (dom : String) (hv : Bool) (st : IpState) :
    ((st.is_blocked && decide (dom ≠ st.first_query) && !hv) = true ∧
      escapeHatchStep dom hv st =
        .inl (false, { st with is_legit := true, is_blocked := false })) ∨
    ((st.is_blocked && decide (dom ≠ st.first_query) && !hv) = false ∧
      escapeHatchStep dom hv st = .inr st) := by
  cases hg : (st.is_blocked && decide (dom ≠ st.first_query) && !hv) with
  | true => exact .inl ⟨rfl, by simp only [escapeHatchStep, hg]; simp⟩
  | false => exact .inr ⟨rfl, by simp only [escapeHatchStep, hg]; simp⟩

theorem blockedStep_spec (st : IpState) :
    (st.is_blocked = true ∧ blockedStep st = .inl (true, st)) ∨
    (st.is_blocked = false ∧ blockedStep st = .inr st) := by
  by_cases hg : st.is_blocked = true
  · exact .inl ⟨hg, by simp [blockedStep, hg]⟩
  · exact .inr ⟨by simpa using hg, by simp [blockedStep, hg]⟩

theorem autoWhitelistStep_spec (days now : Nat) (st : IpState) :
    ((!st.is_legit && decide (now - st.first_seen > days * 86400)) = true ∧
      autoWhitelistStep days now st = { st with is_legit := true }) ∨
    ((!st.is_legit && decide (now - st.first_seen > days * 86400)) = false ∧
      autoWhitelistStep days now st = st) := by
  by_cases hg : (!st.is_legit && decide (now - st.first_seen > days * 86400)) = true
  · exact .inl ⟨hg, by simp [autoWhitelistStep, hg]⟩
  · exact .inr ⟨by simpa using hg, by simp [autoWhitelistStep, hg]⟩

theorem tcpExpiryStep_spec (fc : FilterConfig) (now : Nat) (st : IpState) :
    tcpExpiryStep fc now st = st ∨
    tcpExpiryStep fc now st =
      { st with tcp_validated := false, tcp_validation_time := none } := by
  unfold tcpExpiryStep
  by_cases hv : st.tcp_validated = true
  · rcases ht : st.tcp_validation_time with _ | vt
    · exact .inl (by simp [hv, ht])
    · by_cases he : now - vt > fc.tcp_validation_ttl_hours * 3600
      · exact .inr (by simp [hv, ht, he])
      · exact .inl (by simp [hv, ht, he])
  · exact .inl (by simp [hv])

theorem rrlStep_spec (fc : FilterConfig) (now : Nat) (st : IpState) :
    rrlStep fc now st = .inr st ∨
    (∃ lc rc,
      rrlStep fc now st = .inl (true, { st with last_rrl_check := lc, rrl_response_count := rc }) ∨
      rrlStep fc now st = .inr { st with last_rrl_check := lc, rrl_response_count := rc }) := by
  by_cases he : fc.enable_rrl = true
  · right
    refine ⟨(advanceWindow now st.last_rrl_check st.rrl_response_count).1,
      (advanceWindow now st.last_rrl_check st.rrl_response_count).2 + 1, ?_⟩
    simp only [rrlStep, he, if_true]
    split_ifs <;> first | exact .inl rfl | exact .inr rfl
  · left
    simp [rrlStep, he]

theorem rateLimitStep_spec (rlc : RateLimitConfig) (now : Nat) (st : IpState) :
    rateLimitStep rlc now st = .inr st ∨
    (∃ lc rc, rateLimitStep rlc now st =
        .inr { st with last_rate_check := lc, current_window_requests := rc }) ∨
    (∃ lc rc, rateLimitStep rlc now st = .inl (true, { st with
        last_rate_check := lc
        current_window_requests := rc
        offense_count := st.offense_count + 1
        banned_until := some (now + if st.offense_count == 0 then
          rlc.first_offense_duration_secs else rlc.second_offense_duration_secs)
        is_blocked := true })) := by
  by_cases he : rlc.enabled = true
  · by_cases hw : (advanceWindow now st.last_rate_check st.current_window_requests).2 + 1 >
        rlc.requests_per_sec
    · refine .inr (.inr ⟨(advanceWindow now st.last_rate_check st.current_window_requests).1,
        (advanceWindow now st.last_rate_check st.current_window_requests).2 + 1, ?_⟩)
      simp only [rateLimitStep, he, if_true]
      rw [if_pos hw]
    · refine .inr (.inl ⟨(advanceWindow now st.last_rate_check st.current_window_requests).1,
        (advanceWindow now st.last_rate_check st.current_window_requests).2 + 1, ?_⟩)
      simp only [rateLimitStep, he, if_true]
      rw [if_neg hw]
  · left
    simp [rateLimitStep, he]

theorem legitStep_spec (dom : String) (hv : Bool) (st : IpState) :
    legitStep dom hv st = (false, st) ∨
    (st.is_legit = false ∧ (decide (dom ≠ st.first_query) && !hv) = true ∧
      legitStep dom hv st = (false, { st with is_legit := true, is_blocked := false })) := by
  cases hl : st.is_legit with
  | true => exact .inl (by simp only [legitStep, hl]; simp)
  | false =>
    cases hg : (decide (dom ≠ st.first_query) && !hv) with
    | true => exact .inr ⟨rfl, rfl, by simp only [legitStep, hl, hg]; simp⟩
    | false => exact .inl (by simp only [legitStep, hl, hg]; simp)

/-! ## Composed effects of the closure -/

theorem autoTcp_spec (fc : FilterConfig) (days now : Nat) (st1 : IpState) :
    ∃ s, tcpExpiryStep fc now (autoWhitelistStep days now st1) = s ∧
      s.banned_until = st1.banned_until ∧ s.is_blocked = st1.is_blocked ∧
      s.offense_count = st1.offense_count ∧ s.first_query = st1.first_query ∧
      s.first_seen = st1.first_seen ∧
      (s.is_legit = st1.is_legit ∨
        (s.is_legit = true ∧ now - st1.first_seen > days * 86400)) := by
  obtain ⟨s0, hs0, hfacts⟩ : ∃ s0, autoWhitelistStep days now st1 = s0 ∧
      (s0.banned_until = st1.banned_until ∧ s0.is_blocked = st1.is_blocked ∧
      s0.offense_count = st1.offense_count ∧ s0.first_query = st1.first_query ∧
      s0.first_seen = st1.first_seen ∧
      (s0.is_legit = st1.is_legit ∨
        (s0.is_legit = true ∧ now - st1.first_seen > days * 86400))) := by
    rcases autoWhitelistStep_spec days now st1 with ⟨hga, hea⟩ | ⟨hga, hea⟩
    · refine ⟨_, hea, ?_⟩
      simp_all
    · exact ⟨_, hea, rfl, rfl, rfl, rfl, rfl, .inl rfl⟩
  rw [hs0]
  rcases tcpExpiryStep_spec fc now s0 with het | het
  · exact ⟨_, het, hfacts⟩
  · refine ⟨_, het, ?_⟩
    simp_all

theorem rateLegitTail (rlc : RateLimitConfig) (now : Nat) (dom : String) (hv : Bool)
    (s2 : IpState) (b : Bool) (st' : IpState)
    (hbn : s2.banned_until = none)
    (h : finishStep (rateLimitStep rlc now s2) (legitStep dom hv) = (b, st')) :
    (∀ t, st'.banned_until = some t →
      t = now + (if s2.offense_count == 0 then rlc.first_offense_duration_secs
          else rlc.second_offense_duration_secs) ∧
      st'.offense_count = s2.offense_count + 1 ∧ st'.is_blocked = true) ∧
    (st'.is_legit = true → s2.is_legit = true ∨ (dom ≠ s2.first_query ∧ hv = false)) := by
  rcases rateLimitStep_spec rlc now s2 with he | ⟨lc, rc, he⟩ | ⟨lc, rc, he⟩ <;>
    rw [he] at h <;> simp only [finishStep] at h
  · rcases legitStep_spec dom hv s2 with hl | ⟨hl0, hlg, hl⟩ <;> rw [hl] at h <;>
      cases h <;> refine ⟨?_, ?_⟩ <;> simp_all
  · rcases legitStep_spec dom hv { s2 with last_rate_check := lc, current_window_requests := rc }
      with hl | ⟨hl0, hlg, hl⟩ <;> rw [hl] at h <;>
      cases h <;> refine ⟨?_, ?_⟩ <;> simp_all
  · cases h
    refine ⟨?_, ?_⟩ <;> simp_all

theorem afterBanSteps_effects (fc : FilterConfig) (rlc : RateLimitConfig)
    (days now : Nat) (dom : String) (hv : Bool) (st1 : IpState) (b : Bool) (st' : IpState)
    (hbn : st1.banned_until = none)
    (h : afterBanSteps fc rlc days now dom hv st1 = (b, st')) :
    (∀ t, st'.banned_until = some t →
      (t = now + rlc.second_offense_duration_secs ∧ st'.offense_count = st1.offense_count) ∨
      (t = now + (if st1.offense_count == 0 then rlc.first_offense_duration_secs
          else rlc.second_offense_duration_secs)
        ∧ st'.offense_count = st1.offense_count + 1)) ∧
    (st1.is_legit = false → st'.is_legit = true →
      ((dom ≠ st1.first_query ∧ hv = false) ∨ now - st1.first_seen > days * 86400)) ∧
    (∀ u, st'.banned_until = some u → st'.is_blocked = true) ∧
    (st1.is_blocked = true → st1.is_legit = false → st'.is_legit = true →
      (dom ≠ st1.first_query ∧ hv = false)) := by
  unfold afterBanSteps at h
  rcases reflectionStep_spec fc rlc now st1 with ⟨hg2, he2⟩ | ⟨hg2, he2⟩
  · rw [he2] at h
    simp only [stepThen, finishStep] at h
    cases h
    refine ⟨?_, ?_, ?_, ?_⟩ <;> simp_all
  · rw [he2] at h
    simp only [stepThen] at h
    rcases entropyStep_spec fc st1 with ⟨hg3, he3⟩ | ⟨hg3, he3⟩
    · rw [he3] at h
      simp only [stepThen, finishStep] at h
      cases h
      refine ⟨?_, ?_, ?_, ?_⟩ <;> simp_all
    · rw [he3] at h
      simp only [stepThen] at h
      rcases escapeHatchStep_spec dom hv st1 with ⟨hg4, he4⟩ | ⟨hg4, he4⟩
      · rw [he4] at h
        simp only [stepThen, finishStep] at h
        cases h
        refine ⟨?_, ?_, ?_, ?_⟩ <;> simp_all
      · rw [he4] at h
        simp only [stepThen] at h
        rcases blockedStep_spec st1 with ⟨hbl, he5⟩ | ⟨hbl, he5⟩
        · rw [he5] at h
          simp only [stepThen, finishStep] at h
          cases h
          refine ⟨?_, ?_, ?_, ?_⟩ <;> simp_all
        · rw [he5] at h
          simp only [stepThen] at h
          obtain ⟨s, hs, hsb, hsbl, hso, hsq, hss, hsl⟩ := autoTcp_spec fc days now st1
          rw [hs] at h
          rcases rrlStep_spec fc now s with he8 | ⟨lc, rc, he8 | he8⟩
          · rw [he8] at h
            simp only [stepThen] at h
            have ht := rateLegitTail rlc now dom hv s b st' (by rw [hsb, hbn]) h
            refine ⟨?_, ?_, ?_, ?_⟩
            · intro t htb
              right
              obtain ⟨h1, h2, _⟩ := ht.1 t htb
              rw [hso] at h1 h2
              exact ⟨h1, h2⟩
            · intro hl0 hl1
              rcases ht.2 hl1 with hx | hx
              · rcases hsl with hy | ⟨hy, hage⟩
                · rw [hl0] at hy
                  simp [hy] at hx
                · exact .inr hage
              · exact .inl ⟨hsq ▸ hx.1, hx.2⟩
            · intro u hu
              exact (ht.1 u hu).2.2
            · intro hbl1
              rw [hbl1] at hbl
              exact absurd hbl (by simp)
          · rw [he8] at h
            simp only [stepThen, finishStep] at h
            cases h
            refine ⟨?_, ?_, ?_, ?_⟩
            · intro t htb
              simp [hsb, hbn] at htb
            · intro hl0 hl1
              rcases hsl with hy | ⟨hy, hage⟩
              · rw [hl0] at hy
                simp only at hl1
                simp [hy] at hl1
              · exact .inr hage
            · intro u hu
              simp [hsb, hbn] at hu
            · intro hbl1
              rw [hbl1] at hbl
              exact absurd hbl (by simp)
          · rw [he8] at h
            simp only [stepThen] at h
            have ht := rateLegitTail rlc now dom hv
              { s with last_rrl_check := lc, rrl_response_count := rc } b st'
              (by simp [hsb, hbn]) h
            refine ⟨?_, ?_, ?_, ?_⟩
            · intro t htb
              right
              obtain ⟨h1, h2, _⟩ := ht.1 t htb
              simp only [hso] at h1 h2
              exact ⟨h1, h2⟩
            · intro hl0 hl1
              rcases ht.2 hl1 with hx | hx
              · rcases hsl with hy | ⟨hy, hage⟩
                · rw [hl0] at hy
                  simp only [hy] at hx
                  simp at hx
                · exact .inr hage
              · refine .inl ⟨?_, hx.2⟩
                simpa [hsq] using hx.1
            · intro u hu
              exact (ht.1 u hu).2.2
            · intro hbl1
              rw [hbl1] at hbl
              exact absurd hbl (by simp)


theorem inspectExisting_effects (fc : FilterConfig) (rlc : RateLimitConfig)
    (days now : Nat) (dom : String) (sz : Nat) (hv : Bool) (st : IpState)
    (b : Bool) (st' : IpState)
    (h : inspectExisting fc rlc days now dom sz hv st = (b, st')) :
    (∀ t, st'.banned_until = some t → st.banned_until ≠ some t →
      (t = now + rlc.second_offense_duration_secs ∧ st'.offense_count = st.offense_count) ∨
      (t = now + (if st.offense_count == 0 then rlc.first_offense_duration_secs
          else rlc.second_offense_duration_secs)
        ∧ st'.offense_count = st.offense_count + 1)) ∧
    (st.is_legit = false → st'.is_legit = true →
      ((dom ≠ st.first_query ∧ hv = false) ∨ now - st.first_seen > days * 86400)) ∧
    ((∀ u, st.banned_until = some u → st.is_blocked = true) →
      ∀ u, st'.banned_until = some u → st'.is_blocked = true) ∧
    (st.is_blocked = true → st.banned_until = none → st.is_legit = false →
      st'.is_legit = true → (dom ≠ st.first_query ∧ hv = false)) := by
  unfold inspectExisting at h
  rcases banExpiryStep_spec now (touchState st now dom sz) with
    ⟨hb1, he1⟩ | ⟨u, hb1, hu1, he1⟩ | ⟨u, hb1, hu1, he1⟩
  · rw [he1] at h
    simp only [finishStep] at h
    have hx := afterBanSteps_effects fc rlc days now dom hv _ b st' hb1 h
    refine ⟨?_, ?_, ?_, ?_⟩
    · intro t ht _
      simpa using hx.1 t ht
    · intro h0 h1
      simpa using hx.2.1 (by simpa using h0) h1
    · intro _ u hu
      exact hx.2.2.1 u hu
    · intro hbl0 _ h0 h1
      simpa using hx.2.2.2 (by simpa using hbl0) (by simpa using h0) h1
  · rw [he1] at h
    simp only [finishStep] at h
    have hx := afterBanSteps_effects fc rlc days now dom hv _ b st' rfl h
    refine ⟨?_, ?_, ?_, ?_⟩
    · intro t ht _
      simpa using hx.1 t ht
    · intro h0 h1
      simpa using hx.2.1 (by simpa using h0) h1
    · intro _ u hu
      exact hx.2.2.1 u hu
    · intro _ hbn0
      rw [touchState_banned_until] at hb1
      rw [hbn0] at hb1
      cases hb1
  · rw [he1] at h
    simp only [finishStep] at h
    cases h
    refine ⟨?_, ?_, ?_, ?_⟩
    · intro t ht hne
      rw [touchState_banned_until] at ht
      exact absurd ht hne
    · intro h0 h1
      rw [touchState_is_legit, h0] at h1
      cases h1
    · intro hpre v hv2
      rw [touchState_banned_until] at hv2
      rw [touchState_is_blocked]
      exact hpre v hv2
    · intro _ hbn0
      rw [touchState_banned_until] at hb1
      rw [hbn0] at hb1
      cases hb1

/-! ## Lookup lemmas for the three public operations -/

theorem inspect_stateless (insp : PacketInspector) (now : Nat)
    (src dom : String) (qt : Option String) (sz : Nat)
    (hf : statelessBlock insp.filter_config qt sz = true) :
    insp.inspect now src dom qt sz = (true, insp) := by
  unfold PacketInspector.inspect
  simp [hf]

theorem inspect_ip_states_other (insp : PacketInspector) (now : Nat)
    (src dom : String) (qt : Option String) (sz : Nat) (k : String)
    (hk : k ≠ src) :
    (insp.inspect now src dom qt sz).2.ip_states k = insp.ip_states k := by
  unfold PacketInspector.inspect
  split_ifs
  · rfl
  · cases hs : insp.ip_states src <;> simp [updateMap, hk]

theorem inspect_src_none (insp : PacketInspector) (now : Nat)
    (src dom : String) (qt : Option String) (sz : Nat)
    (hs : insp.ip_states src = none)
    (hf : statelessBlock insp.filter_config qt sz = false) :
    insp.inspect now src dom qt sz =
      (decide (insp.domain_stats dom + 1 > insp.threshold_domain_reqs),
       { insp with
         domain_stats := updateMap insp.domain_stats dom (insp.domain_stats dom + 1)
         ip_states := updateMap insp.ip_states src (some (freshIpState now dom sz
           (decide (insp.domain_stats dom + 1 > insp.threshold_domain_reqs)))) }) := by
  unfold PacketInspector.inspect
  simp [hf, hs]

theorem inspect_src_some (insp : PacketInspector) (now : Nat)
    (src dom : String) (qt : Option String) (sz : Nat) (st : IpState)
    (hs : insp.ip_states src = some st)
    (hf : statelessBlock insp.filter_config qt sz = false) :
    insp.inspect now src dom qt sz =
      ((inspectExisting insp.filter_config insp.rate_limit_config
          insp.auto_whitelist_days now dom sz
          (decide (insp.domain_stats dom + 1 > insp.threshold_domain_reqs)) st).1,
       { insp with
         domain_stats := updateMap insp.domain_stats dom (insp.domain_stats dom + 1)
         ip_states := updateMap insp.ip_states src
           (some (inspectExisting insp.filter_config insp.rate_limit_config
             insp.auto_whitelist_days now dom sz
             (decide (insp.domain_stats dom + 1 > insp.threshold_domain_reqs)) st).2) }) := by
  unfold PacketInspector.inspect
  simp [hf, hs]

@[simp] theorem updateMap_same {α : Type} (m : String → α) (k : String) (v : α) :
    updateMap m k v k = v := by
  simp [updateMap]

theorem mark_tcp_preserves (insp : PacketInspector) (now : Nat) (ip k : String)
    (st' : IpState)
    (h : (insp.mark_tcp_validated now ip).2.ip_states k = some st') :
    ∃ st, insp.ip_states k = some st ∧ st'.is_legit = st.is_legit ∧
      st'.banned_until = st.banned_until ∧ st'.is_blocked = st.is_blocked := by
  unfold PacketInspector.mark_tcp_validated at h
  cases hs : insp.ip_states ip with
  | none =>
    rw [hs] at h
    exact ⟨st', h, rfl, rfl, rfl⟩
  | some st =>
    rw [hs] at h
    dsimp only at h
    by_cases hk : k = ip
    · subst hk
      simp only [updateMap_same] at h
      rw [← Option.some.inj h]
      exact ⟨st, hs, rfl, rfl, rfl⟩
    · simp only [updateMap, if_neg hk] at h
      exact ⟨st', h, rfl, rfl, rfl⟩

theorem record_response_preserves (insp : PacketInspector) (ip : String)
    (bytes : Nat) (k : String) (st' : IpState)
    (h : (insp.record_response_size ip bytes).2.ip_states k = some st') :
    ∃ st, insp.ip_states k = some st ∧ st'.is_legit = st.is_legit ∧
      st'.banned_until = st.banned_until ∧
      (st'.is_blocked = st.is_blocked ∨ st'.is_blocked = true) := by
  unfold PacketInspector.record_response_size at h
  cases hs : insp.ip_states ip with
  | none =>
    rw [hs] at h
    exact ⟨st', h, rfl, rfl, .inl rfl⟩
  | some st =>
    rw [hs] at h
    dsimp only at h
    by_cases hk : k = ip
    · subst hk
      split_ifs at h <;> simp only [updateMap_same] at h <;>
        rw [← Option.some.inj h] <;>
        exact ⟨st, hs, rfl, rfl, by simp⟩
    · split_ifs at h <;> simp only [updateMap, if_neg hk] at h <;>
        exact ⟨st', h, rfl, rfl, .inl rfl⟩


/-! ## Claim theorems -/

/-- C8: a call to `inspect` whose known query type trips a stateless
filter (ANY with `block_any_queries`; TXT with `block_large_txt` and an
oversized packet; or a type in `blocked_query_types`) returns block and
leaves the inspector — per-domain counters and per-IP states — entirely
unchanged. -/
theorem C8_stateless_frame (insp : PacketInspector) (now : Nat)
    (src dom : String) (qt : Option String) (sz : Nat)
    (h : (qt = some "ANY" ∧ insp.filter_config.block_any_queries = true) ∨
      (qt = some "TXT" ∧ insp.filter_config.block_large_txt = true ∧
        sz > insp.filter_config.txt_max_size) ∨
      (∃ ty, qt = some ty ∧ ty ∈ insp.filter_config.blocked_query_types)) :
    insp.inspect now src dom qt sz = (true, insp) := by
  apply inspect_stateless
  rcases h with ⟨hq, hb⟩ | ⟨hq, hb, hsz⟩ | ⟨ty, hq, hm⟩ <;> subst hq
  · simp [statelessBlock, hb]
  · simp only [statelessBlock, hb, List.any_eq_true]
    simp [hsz]
  · simp only [statelessBlock]
    rw [show (insp.filter_config.blocked_query_types.any fun t => t == ty) = true
      from List.any_eq_true.mpr ⟨ty, hm, by simp⟩]
    simp

/-- Witness for C8 at a concrete ANY query. -/
theorem C8_stateless_frame_witness :
    inspT.inspect 0 "7.7.7.7" "any.com" (some "ANY") 50 = (true, inspT) :=
  C8_stateless_frame inspT 0 "7.7.7.7" "any.com" (some "ANY") 50 (.inl ⟨rfl, rfl⟩)

/-- C9: `mark_tcp_validated` stamps `tcp_validated` and the validation
time on an existing state and returns true; for an unknown IP it
returns false and leaves the inspector (hence both maps) unchanged. -/
theorem C9_mark_tcp (insp : PacketInspector) (now : Nat) (ip : String) :
    (insp.ip_states ip = none → insp.mark_tcp_validated now ip = (false, insp)) ∧
    (∀ st, insp.ip_states ip = some st →
      insp.mark_tcp_validated now ip =
        (true, { insp with
          ip_states := updateMap insp.ip_states ip
            (some { st with tcp_validated := true,
                            tcp_validation_time := some now }) })) := by
  constructor
  · intro hs
    unfold PacketInspector.mark_tcp_validated
    rw [hs]
  · intro st hs
    unfold PacketInspector.mark_tcp_validated
    rw [hs]

/-- Witness for C9: an unknown IP and a known one. -/
theorem C9_mark_tcp_witness :
    (inspT.mark_tcp_validated 5 "1.2.3.4" = (false, inspT)) ∧
    (inspE.mark_tcp_validated 5 "5.5.5.5" =
      (true, { inspE with
        ip_states := updateMap inspE.ip_states "5.5.5.5"
          (some { eSt with tcp_validated := true,
                           tcp_validation_time := some 5 }) })) :=
  ⟨(C9_mark_tcp inspT 5 "1.2.3.4").1 rfl,
   (C9_mark_tcp inspE 5 "5.5.5.5").2 eSt (by decide)⟩

/-- C10: a firing reflection detector blocks, bans for
`second_offense_duration_secs`, and leaves `offense_count` unchanged,
so the offense ladder never counts a reflection ban. -/
theorem C10_reflection (fc : FilterConfig) (rlc : RateLimitConfig)
    (now : Nat) (st : IpState)
    (hd : fc.detect_reflection_patterns = true)
    (hg : reflectionGuard now st = true) :
    ∃ st', reflectionStep fc rlc now st = .inl (true, st') ∧
      st'.is_blocked = true ∧
      st'.banned_until = some (now + rlc.second_offense_duration_secs) ∧
      st'.offense_count = st.offense_count := by
  refine ⟨{ st with is_blocked := true,
                    banned_until := some (now + rlc.second_offense_duration_secs) },
    ?_, rfl, rfl, rfl⟩
  simp [reflectionStep, hd, hg]

/-- Witness for C10 at a concrete high-rate state. -/
theorem C10_reflection_witness :
    ∃ st', reflectionStep fcT rlcT 0 wSt = .inl (true, st') ∧
      st'.is_blocked = true ∧
      st'.banned_until = some (0 + rlcT.second_offense_duration_secs) ∧
      st'.offense_count = wSt.offense_count :=
  C10_reflection fcT rlcT 0 wSt rfl (by decide)

/-- C4: first contact (no prior state, no stateless filter) creates a
state whose `first_query` is the queried name; the call returns block,
latching `is_blocked`, exactly when the domain counter after this
increment exceeds `threshold_domain_reqs`, and returns pass
otherwise. -/
theorem C4_first_contact (insp : PacketInspector) (now : Nat)
    (src dom : String) (qt : Option String) (sz : Nat)
    (hs : insp.ip_states src = none)
    (hf : statelessBlock insp.filter_config qt sz = false) :
    ∃ st', (insp.inspect now src dom qt sz).2.ip_states src = some st' ∧
      st'.first_query = dom ∧
      st'.is_blocked = (insp.inspect now src dom qt sz).1 ∧
      ((insp.inspect now src dom qt sz).1 = true ↔
        insp.domain_stats dom + 1 > insp.threshold_domain_reqs) := by
  rw [inspect_src_none insp now src dom qt sz hs hf]
  exact ⟨freshIpState now dom sz
      (decide (insp.domain_stats dom + 1 > insp.threshold_domain_reqs)),
    by simp [updateMap], rfl, rfl, by simp⟩

/-- Witness for C4: benign first contact passes, hostile one blocks. -/
theorem C4_first_contact_witness :
    ∃ st', (inspE.inspect 0 "2.2.2.2" "flood.com" none 0).2.ip_states "2.2.2.2" = some st' ∧
      st'.first_query = "flood.com" ∧
      st'.is_blocked = (inspE.inspect 0 "2.2.2.2" "flood.com" none 0).1 ∧
      ((inspE.inspect 0 "2.2.2.2" "flood.com" none 0).1 = true ↔
        inspE.domain_stats "flood.com" + 1 > inspE.threshold_domain_reqs) :=
  C4_first_contact inspE 0 "2.2.2.2" "flood.com" none 0 (by decide) rfl


/-- C6: with `enable_rrl` set, the RRL stage advances the 1-second
window and increments `rrl_response_count`; the query is dropped
(`inspect` returns block) exactly when the incremented count exceeds
`rrl_responses_per_sec` and the slip does not let it through
(`slip_ratio = 0` or `count mod slip_ratio ≠ 0`); an RRL drop never
changes `is_blocked`. -/
theorem C6_rrl (fc : FilterConfig) (now : Nat) (st : IpState)
    (he : fc.enable_rrl = true) :
    ∃ st',
      st'.last_rrl_check =
        (advanceWindow now st.last_rrl_check st.rrl_response_count).1 ∧
      st'.rrl_response_count =
        (advanceWindow now st.last_rrl_check st.rrl_response_count).2 + 1 ∧
      st'.is_blocked = st.is_blocked ∧
      (st'.rrl_response_count > fc.rrl_responses_per_sec ∧
          (fc.rrl_slip_ratio = 0 ∨ st'.rrl_response_count % fc.rrl_slip_ratio ≠ 0) →
        rrlStep fc now st = .inl (true, st')) ∧
      (¬(st'.rrl_response_count > fc.rrl_responses_per_sec ∧
          (fc.rrl_slip_ratio = 0 ∨ st'.rrl_response_count % fc.rrl_slip_ratio ≠ 0)) →
        rrlStep fc now st = .inr st') := by
  refine ⟨{ st with
            last_rrl_check :=
              (advanceWindow now st.last_rrl_check st.rrl_response_count).1
            rrl_response_count :=
              (advanceWindow now st.last_rrl_check st.rrl_response_count).2 + 1 },
    rfl, rfl, rfl, ?_, ?_⟩
  · intro h12
    obtain ⟨h1, h2⟩ := h12
    simp only [rrlStep, he, if_true]
    split_ifs with hA hB
    · rfl
    · exfalso
      simp only [Bool.or_eq_true, beq_iff_eq, bne_iff_ne, ne_eq,
        not_or, not_not] at hB
      push_neg at hB
      rcases h2 with h2 | h2
      · exact hB.1 h2
      · exact h2 hB.2
    all_goals exact absurd h1 hA
  · intro hn
    simp only [rrlStep, he, if_true]
    split_ifs with hA hB
    · exfalso
      apply hn
      refine ⟨hA, ?_⟩
      simp only [Bool.or_eq_true, beq_iff_eq, bne_iff_ne, ne_eq] at hB
      exact hB
    · rfl
    · rfl

/-- Witness for C6: a drop at a concrete over-budget state. -/
theorem C6_rrl_witness :
    ∃ st',
      st'.last_rrl_check =
        (advanceWindow 0 wSt.last_rrl_check wSt.rrl_response_count).1 ∧
      st'.rrl_response_count =
        (advanceWindow 0 wSt.last_rrl_check wSt.rrl_response_count).2 + 1 ∧
      st'.is_blocked = wSt.is_blocked ∧
      (st'.rrl_response_count > fcW.rrl_responses_per_sec ∧
          (fcW.rrl_slip_ratio = 0 ∨ st'.rrl_response_count % fcW.rrl_slip_ratio ≠ 0) →
        rrlStep fcW 0 wSt = .inl (true, st')) ∧
      (¬(st'.rrl_response_count > fcW.rrl_responses_per_sec ∧
          (fcW.rrl_slip_ratio = 0 ∨ st'.rrl_response_count % fcW.rrl_slip_ratio ≠ 0)) →
        rrlStep fcW 0 wSt = .inr st') :=
  C6_rrl fcW 0 wSt rfl

/-- C7: `record_response_size` adds the bytes to
`total_response_bytes`; for a known IP it returns true and latches
`is_blocked` exactly when `total_query_bytes > 0`, the updated integer
ratio exceeds `amplification_ratio_limit`, the IP is not TCP-validated,
and the updated total exceeds 10000; for an unknown IP it returns false
and changes nothing; a true return always has the updated total above
10000 (`P8`). -/
theorem C7_record_response (insp : PacketInspector) (ip : String) (bytes : Nat) :
    (insp.ip_states ip = none → insp.record_response_size ip bytes = (false, insp)) ∧
    (∀ st, insp.ip_states ip = some st →
      ((st.total_query_bytes > 0 ∧
          (st.total_response_bytes + bytes) / st.total_query_bytes >
            insp.filter_config.amplification_ratio_limit ∧
          st.tcp_validated = false ∧ st.total_response_bytes + bytes > 10000) →
        insp.record_response_size ip bytes =
          (true, { insp with
            ip_states := updateMap insp.ip_states ip
              (some { st with
                      is_blocked := true
                      total_response_bytes := st.total_response_bytes + bytes }) })) ∧
      (¬(st.total_query_bytes > 0 ∧
          (st.total_response_bytes + bytes) / st.total_query_bytes >
            insp.filter_config.amplification_ratio_limit ∧
          st.tcp_validated = false ∧ st.total_response_bytes + bytes > 10000) →
        insp.record_response_size ip bytes =
          (false, { insp with
            ip_states := updateMap insp.ip_states ip
              (some { st with
                      total_response_bytes := st.total_response_bytes + bytes }) }))) ∧
    ((insp.record_response_size ip bytes).1 = true →
      ∃ st, insp.ip_states ip = some st ∧ st.total_response_bytes + bytes > 10000) := by
  refine ⟨?_, ?_, ?_⟩
  · intro hs
    unfold PacketInspector.record_response_size
    rw [hs]
  · intro st hs
    constructor
    · intro hcond
      obtain ⟨h1, h2, h3, h4⟩ := hcond
      unfold PacketInspector.record_response_size
      rw [hs]
      dsimp only
      split_ifs with hq
      · rfl
      all_goals
        exfalso
        simp_all
    · intro hn
      unfold PacketInspector.record_response_size
      rw [hs]
      dsimp only
      split_ifs with hq hc
      · exfalso
        apply hn
        simp only [Bool.and_eq_true, decide_eq_true_eq, Bool.not_eq_eq_eq_not,
          Bool.not_true] at hc
        exact ⟨hq, hc.1.1, by simpa using hc.1.2, hc.2⟩
      · rfl
      · rfl
  · intro hb
    unfold PacketInspector.record_response_size at hb
    cases hs : insp.ip_states ip with
    | none =>
      rw [hs] at hb
      cases hb
    | some st =>
      rw [hs] at hb
      dsimp only at hb
      split_ifs at hb with hq hc
      all_goals refine ⟨st, rfl, ?_⟩
      all_goals simp_all

/-- Witness for C7: the unknown-IP case and a concrete amplification
block (21 × 50-byte queries, then 20000 response bytes). -/
theorem C7_record_response_witness :
    (inspT.record_response_size "n.n.n.n" 7 = (false, inspT)) ∧
    ∃ st, (runOps inspT (floodOps "9.9.9.9")).ip_states "9.9.9.9" = some st ∧
      st.total_response_bytes + 20000 > 10000 :=
  ⟨(C7_record_response inspT "n.n.n.n" 7).1 rfl,
   (C7_record_response (runOps inspT (floodOps "9.9.9.9")) "9.9.9.9" 20000).2.2
     (by decide)⟩


/-- When the ban-expiry check falls through with no ban and neither
detector fires, the escape hatch decides the call. -/
theorem inspectExisting_escape (fc : FilterConfig) (rlc : RateLimitConfig)
    (days now : Nat) (dom : String) (sz : Nat) (hv : Bool) (st : IpState)
    (hb : st.banned_until = none) (hbl : st.is_blocked = true)
    (hq : dom ≠ st.first_query) (hhv : hv = false)
    (hr : (fc.detect_reflection_patterns &&
      reflectionGuard now (touchState st now dom sz)) = false)
    (hent : (fc.entropyTrips (touchState st now dom sz).unique_domains &&
      decide ((touchState st now dom sz).unique_domains.length > 10) &&
      !(touchState st now dom sz).tcp_validated) = false) :
    inspectExisting fc rlc days now dom sz hv st =
      (false, { touchState st now dom sz with
                is_legit := true
                is_blocked := false }) := by
  rcases banExpiryStep_spec now (touchState st now dom sz) with
    ⟨hb1, he1⟩ | ⟨u, hb1, _, _⟩ | ⟨u, hb1, _, _⟩
  · unfold inspectExisting
    rw [he1]
    simp only [finishStep]
    unfold afterBanSteps
    rcases reflectionStep_spec fc rlc now (touchState st now dom sz) with
      ⟨hg2, _⟩ | ⟨_, he2⟩
    · rw [hr] at hg2
      cases hg2
    · rw [he2]
      simp only [stepThen]
      rcases entropyStep_spec fc (touchState st now dom sz) with
        ⟨hg3, _⟩ | ⟨_, he3⟩
      · rw [hent] at hg3
        cases hg3
      · rw [he3]
        simp only [stepThen]
        rcases escapeHatchStep_spec dom hv (touchState st now dom sz) with
          ⟨_, he4⟩ | ⟨hg4, _⟩
        · rw [he4]
          simp only [stepThen, finishStep]
        · exfalso
          rw [touchState_is_blocked, hbl, hhv] at hg4
          simp [hq] at hg4
  · rw [touchState_banned_until, hb] at hb1
    cases hb1
  · rw [touchState_banned_until, hb] at hb1
    cases hb1

/-- An active temporal ban short-circuits the closure with a block. -/
theorem inspectExisting_banActive (fc : FilterConfig) (rlc : RateLimitConfig)
    (days now : Nat) (dom : String) (sz : Nat) (hv : Bool) (st : IpState)
    (t : Nat) (hb : st.banned_until = some t) (hlt : ¬ now > t) :
    inspectExisting fc rlc days now dom sz hv st =
      (true, touchState st now dom sz) := by
  rcases banExpiryStep_spec now (touchState st now dom sz) with
    ⟨hb1, _⟩ | ⟨u, hb1, hu, _⟩ | ⟨u, hb1, hu, he⟩
  · rw [touchState_banned_until, hb] at hb1
    cases hb1
  · rw [touchState_banned_until, hb] at hb1
    obtain rfl := Option.some.inj hb1
    exact absurd hu hlt
  · unfold inspectExisting
    rw [he]
    rfl

/-- Every single operation preserves the ban/blocked coupling. -/
theorem applyOp_banInv (insp : PacketInspector) (op : Op)
    (hpre : BanInvP insp) : BanInvP (applyOp insp op) := by
  cases op with
  | query now src dom qt sz =>
    intro k st' t hpost ht
    simp only [applyOp] at hpost
    by_cases hf : statelessBlock insp.filter_config qt sz = true
    · rw [inspect_stateless insp now src dom qt sz hf] at hpost
      exact hpre k st' t hpost ht
    · by_cases hk : k = src
      · subst hk
        cases hs : insp.ip_states k with
        | none =>
          rw [inspect_src_none insp now k dom qt sz hs (by simpa using hf)] at hpost
          simp only [updateMap_same] at hpost
          obtain rfl := Option.some.inj hpost
          cases ht
        | some st0 =>
          rw [inspect_src_some insp now k dom qt sz st0 hs (by simpa using hf)] at hpost
          simp only [updateMap_same] at hpost
          obtain rfl := Option.some.inj hpost
          have hx := inspectExisting_effects insp.filter_config
            insp.rate_limit_config insp.auto_whitelist_days now dom sz
            (decide (insp.domain_stats dom + 1 > insp.threshold_domain_reqs))
            st0 _ _ rfl
          exact hx.2.2.1 (fun u hu => hpre k st0 u hs hu) t ht
      · rw [inspect_ip_states_other insp now src dom qt sz k hk] at hpost
        exact hpre k st' t hpost ht
  | tcpValidate now ip =>
    intro k st' t hpost ht
    simp only [applyOp] at hpost
    obtain ⟨st0, hs0, _, hbn, hbl⟩ := mark_tcp_preserves insp now ip k st' hpost
    rw [hbl]
    exact hpre k st0 t hs0 (hbn.symm.trans ht)
  | response ip bytes =>
    intro k st' t hpost ht
    simp only [applyOp] at hpost
    obtain ⟨st0, hs0, _, hbn, hbl⟩ := record_response_preserves insp ip bytes k st' hpost
    rcases hbl with hbl | hbl
    · rw [hbl]
      exact hpre k st0 t hs0 (hbn.symm.trans ht)
    · exact hbl

/-- The coupling is preserved along whole traces. -/
theorem runOps_banInv (insp : PacketInspector) (ops : List Op)
    (hpre : BanInvP insp) : BanInvP (runOps insp ops) := by
  induction ops generalizing insp with
  | nil => exact hpre
  | cons op ops ih => exact ih _ (applyOp_banInv insp op hpre)


/-- C1 counterexample: after 21 clean queries, `8.8.8.8` has never been
banned (`banned_until = none`, `offense_count = 0`); the 22nd query
fires the reflection detector and this first ban lasts
`second_offense_duration_secs = 300`, not
`first_offense_duration_secs = 60`. -/
theorem C1_cex :
    (t21.ip_states "8.8.8.8").map (fun s => (s.banned_until, s.offense_count)) =
      some (none, 0) ∧
    ((t21.inspect 0 "8.8.8.8" "a.com" none 50).2.ip_states "8.8.8.8").map
      (fun s => (s.banned_until, s.offense_count)) = some (some 300, 0) ∧
    rlcT.first_offense_duration_secs = 60 ∧
    rlcT.second_offense_duration_secs = 300 := by
  decide

/-- C1 (amended): a ban installed by `inspect` on an existing state is
either a reflection ban — `second_offense_duration_secs`, ladder
untouched — or a rate-limiter ban — `first_offense_duration_secs` for a
ladder at 0 (the first rate-limiter offense) and
`second_offense_duration_secs` otherwise, advancing the ladder. -/
theorem C1_ban_ladder (insp : PacketInspector) (now : Nat)
    (src dom : String) (qt : Option String) (sz : Nat)
    (st st' : IpState) (t : Nat)
    (hs : insp.ip_states src = some st)
    (hpost : (insp.inspect now src dom qt sz).2.ip_states src = some st')
    (ht : st'.banned_until = some t)
    (hne : st.banned_until ≠ some t) :
    (t = now + insp.rate_limit_config.second_offense_duration_secs ∧
      st'.offense_count = st.offense_count) ∨
    (t = now + (if st.offense_count = 0 then
        insp.rate_limit_config.first_offense_duration_secs
      else insp.rate_limit_config.second_offense_duration_secs) ∧
      st'.offense_count = st.offense_count + 1) := by
  by_cases hf : statelessBlock insp.filter_config qt sz = true
  · rw [inspect_stateless insp now src dom qt sz hf, hs] at hpost
    obtain rfl := Option.some.inj hpost
    exact absurd ht hne
  · rw [inspect_src_some insp now src dom qt sz st hs (by simpa using hf)] at hpost
    simp only [updateMap_same] at hpost
    obtain rfl := Option.some.inj hpost
    have hx := inspectExisting_effects insp.filter_config
      insp.rate_limit_config insp.auto_whitelist_days now dom sz
      (decide (insp.domain_stats dom + 1 > insp.threshold_domain_reqs))
      st _ _ rfl
    rcases hx.1 t ht hne with ⟨h1, h2⟩ | ⟨h1, h2⟩
    · exact .inl ⟨h1, h2⟩
    · refine .inr ⟨?_, h2⟩
      simpa only [beq_iff_eq] using h1

/-- Witness for C1: a first rate-limiter ban uses the first-offense
duration and advances the ladder. -/
theorem C1_ban_ladder_witness :
    (60 = 0 + inspW.rate_limit_config.second_offense_duration_secs ∧
      wStAfter.offense_count = wSt.offense_count) ∨
    (60 = 0 + (if wSt.offense_count = 0 then
        inspW.rate_limit_config.first_offense_duration_secs
      else inspW.rate_limit_config.second_offense_duration_secs) ∧
      wStAfter.offense_count = wSt.offense_count + 1) :=
  C1_ban_ladder inspW 0 "w.w.w.w" "a.com" none 50 wSt wStAfter 60
    (by decide) (by decide) (by decide) (by decide)

/-- C2 counterexample: a benign first contact creates its `IpState`
with `is_legit = true`, without any of the three spec paths (escape
hatch, auto-whitelist, passive legitimization) having run. -/
theorem C2_cex :
    inspT.ip_states "3.3.3.3" = none ∧
    ((inspT.inspect 0 "3.3.3.3" "google.com" none 0).2.ip_states "3.3.3.3").map
      (fun s => s.is_legit) = some true := by
  decide

/-- C2 (amended): `is_legit` becomes true only by the escape hatch or
passive legitimization (different query name against a cold domain), by
the auto-whitelist age check, or at creation of a fresh state whose
first domain is not hot (`is_legit := not blocked`); the other two
operations never change it. -/
theorem C2_legit_sources :
    (∀ (insp : PacketInspector) (now : Nat) (src dom : String)
        (qt : Option String) (sz : Nat),
      insp.ip_states src = none →
      statelessBlock insp.filter_config qt sz = false →
      ∃ st', (insp.inspect now src dom qt sz).2.ip_states src = some st' ∧
        st'.is_legit =
          !(decide (insp.domain_stats dom + 1 > insp.threshold_domain_reqs))) ∧
    (∀ (insp : PacketInspector) (now : Nat) (src dom : String)
        (qt : Option String) (sz : Nat) (k : String) (st st' : IpState),
      insp.ip_states k = some st →
      (insp.inspect now src dom qt sz).2.ip_states k = some st' →
      st.is_legit = false → st'.is_legit = true →
      k = src ∧ ((dom ≠ st.first_query ∧
          insp.domain_stats dom + 1 ≤ insp.threshold_domain_reqs) ∨
        now - st.first_seen > insp.auto_whitelist_days * 86400)) ∧
    (∀ (insp : PacketInspector) (now : Nat) (ip k : String) (st st' : IpState),
      insp.ip_states k = some st →
      (insp.mark_tcp_validated now ip).2.ip_states k = some st' →
      st'.is_legit = st.is_legit) ∧
    (∀ (insp : PacketInspector) (ip : String) (bytes : Nat) (k : String)
        (st st' : IpState),
      insp.ip_states k = some st →
      (insp.record_response_size ip bytes).2.ip_states k = some st' →
      st'.is_legit = st.is_legit) := by
  refine ⟨?_, ?_, ?_, ?_⟩
  · intro insp now src dom qt sz hs hf
    rw [inspect_src_none insp now src dom qt sz hs hf]
    exact ⟨freshIpState now dom sz
        (decide (insp.domain_stats dom + 1 > insp.threshold_domain_reqs)),
      by simp [updateMap], rfl⟩
  · intro insp now src dom qt sz k st st' hs hpost h0 h1
    by_cases hf : statelessBlock insp.filter_config qt sz = true
    · rw [inspect_stateless insp now src dom qt sz hf, hs] at hpost
      obtain rfl := Option.some.inj hpost
      rw [h0] at h1
      cases h1
    · by_cases hk : k = src
      · subst hk
        rw [inspect_src_some insp now k dom qt sz st hs (by simpa using hf)] at hpost
        simp only [updateMap_same] at hpost
        obtain rfl := Option.some.inj hpost
        have hx := inspectExisting_effects insp.filter_config
          insp.rate_limit_config insp.auto_whitelist_days now dom sz
          (decide (insp.domain_stats dom + 1 > insp.threshold_domain_reqs))
          st _ _ rfl
        refine ⟨rfl, ?_⟩
        rcases hx.2.1 h0 h1 with ⟨hqd, hv0⟩ | hage
        · left
          refine ⟨hqd, ?_⟩
          have := of_decide_eq_false hv0
          omega
        · exact .inr hage
      · rw [inspect_ip_states_other insp now src dom qt sz k hk, hs] at hpost
        obtain rfl := Option.some.inj hpost
        rw [h0] at h1
        cases h1
  · intro insp now ip k st st' hs hpost
    obtain ⟨st0, hs0, hl, _, _⟩ := mark_tcp_preserves insp now ip k st' hpost
    rw [hs] at hs0
    obtain rfl := Option.some.inj hs0.symm
    exact hl
  · intro insp ip bytes k st st' hs hpost
    obtain ⟨st0, hs0, hl, _, _⟩ := record_response_preserves insp ip bytes k st' hpost
    rw [hs] at hs0
    obtain rfl := Option.some.inj hs0.symm
    exact hl

/-- Witness for C2: the creation clause at a benign first contact and
the existing-state clause at a concrete escape-hatch call. -/
theorem C2_legit_sources_witness :
    (∃ st', (inspT.inspect 0 "3.3.3.3" "google.com" none 0).2.ip_states "3.3.3.3" =
        some st' ∧
      st'.is_legit =
        !(decide (inspT.domain_stats "google.com" + 1 > inspT.threshold_domain_reqs))) ∧
    ("5.5.5.5" = "5.5.5.5" ∧ (("safe.com" ≠ eSt.first_query ∧
        inspE.domain_stats "safe.com" + 1 ≤ inspE.threshold_domain_reqs) ∨
      0 - eSt.first_seen > inspE.auto_whitelist_days * 86400)) :=
  ⟨C2_legit_sources.1 inspT 0 "3.3.3.3" "google.com" none 0 rfl rfl,
   C2_legit_sources.2.1 inspE 0 "5.5.5.5" "safe.com" none 0 "5.5.5.5" eSt eStAfter
     (by decide) (by decide) rfl rfl⟩


/-- C3 counterexample: `9.9.9.9` satisfies every hypothesis of the
claim (blocked, no temporal ban, different query name, cold domain),
yet the call returns block — the reflection detector fires before the
escape hatch — and `is_blocked` stays set. -/
theorem C3_cex :
    (u22.ip_states "9.9.9.9").map
      (fun s => (s.is_blocked, s.banned_until, s.first_query)) =
      some (true, none, "a.com") ∧
    u22.domain_stats "b.com" + 1 ≤ u22.threshold_domain_reqs ∧
    (u22.inspect 0 "9.9.9.9" "b.com" none 50).1 = true ∧
    ((u22.inspect 0 "9.9.9.9" "b.com" none 50).2.ip_states "9.9.9.9").map
      (fun s => (s.is_legit, s.is_blocked)) = some (true, true) := by
  decide

/-- C3 (amended): under the claim's hypotheses and additionally neither
the reflection nor the entropy detector firing on the call, `inspect`
sets `is_legit`, clears `is_blocked` and returns pass; and for a
blocked IP with no active ban the escape hatch is the only way
`is_legit` turns from false to true. -/
theorem C3_escape_hatch (insp : PacketInspector) (now : Nat)
    (src dom : String) (qt : Option String) (sz : Nat) (st : IpState)
    (hs : insp.ip_states src = some st)
    (hf : statelessBlock insp.filter_config qt sz = false)
    (hbl : st.is_blocked = true) (hbn : st.banned_until = none) :
    (dom ≠ st.first_query →
      insp.domain_stats dom + 1 ≤ insp.threshold_domain_reqs →
      (insp.filter_config.detect_reflection_patterns &&
        reflectionGuard now (touchState st now dom sz)) = false →
      (insp.filter_config.entropyTrips (touchState st now dom sz).unique_domains &&
        decide ((touchState st now dom sz).unique_domains.length > 10) &&
        !(touchState st now dom sz).tcp_validated) = false →
      (insp.inspect now src dom qt sz).1 = false ∧
      ∃ st', (insp.inspect now src dom qt sz).2.ip_states src = some st' ∧
        st'.is_legit = true ∧ st'.is_blocked = false) ∧
    (∀ st', (insp.inspect now src dom qt sz).2.ip_states src = some st' →
      st.is_legit = false → st'.is_legit = true →
      dom ≠ st.first_query ∧
        insp.domain_stats dom + 1 ≤ insp.threshold_domain_reqs) := by
  constructor
  · intro hq hcnt hr hent
    rw [inspect_src_some insp now src dom qt sz st hs hf]
    have hesc := inspectExisting_escape insp.filter_config
      insp.rate_limit_config insp.auto_whitelist_days now dom sz
      (decide (insp.domain_stats dom + 1 > insp.threshold_domain_reqs))
      st hbn hbl hq (decide_eq_false (by omega)) hr hent
    rw [hesc]
    refine ⟨rfl, { touchState st now dom sz with
                   is_legit := true
                   is_blocked := false }, by simp [updateMap], rfl, rfl⟩
  · intro st' hpost h0 h1
    rw [inspect_src_some insp now src dom qt sz st hs hf] at hpost
    simp only [updateMap_same] at hpost
    obtain rfl := Option.some.inj hpost
    have hx := inspectExisting_effects insp.filter_config
      insp.rate_limit_config insp.auto_whitelist_days now dom sz
      (decide (insp.domain_stats dom + 1 > insp.threshold_domain_reqs))
      st _ _ rfl
    obtain ⟨hqd, hv0⟩ := hx.2.2.2 hbl hbn h0 h1
    refine ⟨hqd, ?_⟩
    have := of_decide_eq_false hv0
    omega

/-- Witness for C3: the concrete escape-hatch run of the spec's
scenario 3 (blocked first contact, then a safe-domain query). -/
theorem C3_escape_hatch_witness :
    (inspE.inspect 0 "5.5.5.5" "safe.com" none 0).1 = false ∧
    ∃ st', (inspE.inspect 0 "5.5.5.5" "safe.com" none 0).2.ip_states "5.5.5.5" =
        some st' ∧ st'.is_legit = true ∧ st'.is_blocked = false :=
  (C3_escape_hatch inspE 0 "5.5.5.5" "safe.com" none 0 eSt (by decide) rfl rfl
      rfl).1 (by decide) (by decide) (by decide) (by decide)

/-- C5: along every trace of operations from a fresh inspector, any
state with `banned_until` set has `is_blocked` (so in particular while
the ban is active); and an `inspect` call arriving while a ban is
active returns block. -/
theorem C5_ban_invariant :
    (∀ (thr : Nat) (rlc : RateLimitConfig) (fc : FilterConfig) (days : Nat)
        (ops : List Op),
      BanInvP (runOps (PacketInspector.new thr rlc fc days) ops)) ∧
    (∀ (insp : PacketInspector) (now : Nat) (src dom : String)
        (qt : Option String) (sz : Nat) (st : IpState) (t : Nat),
      insp.ip_states src = some st → st.banned_until = some t → now < t →
      (insp.inspect now src dom qt sz).1 = true) := by
  constructor
  · intro thr rlc fc days ops
    refine runOps_banInv _ ops ?_
    intro ip st t hpost ht
    cases hpost
  · intro insp now src dom qt sz st t hs hb hlt
    by_cases hf : statelessBlock insp.filter_config qt sz = true
    · rw [inspect_stateless insp now src dom qt sz hf]
    · rw [inspect_src_some insp now src dom qt sz st hs (by simpa using hf)]
      have := inspectExisting_banActive insp.filter_config
        insp.rate_limit_config insp.auto_whitelist_days now dom sz
        (decide (insp.domain_stats dom + 1 > insp.threshold_domain_reqs))
        st t hb (by omega)
      simp [this]

/-- Witness for C5: the banned state after six rapid queries, and a
blocked call during the ban. -/
theorem C5_ban_invariant_witness :
    bannedStateT.is_blocked = true ∧
    ((runOps (PacketInspector.new 1000 rlc5 fcT 7) ops6).inspect 10 "6.6.6.6"
      "fast.com" none 0).1 = true :=
  ⟨C5_ban_invariant.1 1000 rlc5 fcT 7 ops6 "6.6.6.6" bannedStateT 60
     (by decide) rfl,
   C5_ban_invariant.2 (runOps (PacketInspector.new 1000 rlc5 fcT 7) ops6) 10
     "6.6.6.6" "fast.com" none 0 bannedStateT 60 (by decide) rfl (by decide)⟩

end Nx53
